import Mathlib

/-!
# Verification of the occurrence reconciliation and retention engine

Shallow embedding of the events pipeline of `tech-calendar`:
`tech_calendar/events/models.py` (domain and lookup models),
`tech_calendar/events/runner.py` (`_merge_occurrence`, `_collect_for_calendar`),
and `tech_calendar/storage/events_repository.py` (`StoredOccurrence`,
`EventRepository.list_occurrences_for_calendar`).

Python `datetime.date` values are modelled as year/month/day triples with the
lexicographic comparison Python uses; machine integers are `Int`.  Fallible
code returns `Except String`.  The SQLite store is modelled as a list of
records with the repository's keyed upsert/fetch/range-query semantics.
-/

namespace TechCalendar

/-- A calendar date, compared lexicographically as Python `datetime.date` is. -/
structure Date where
  year : Int
  month : Nat
  day : Nat
deriving DecidableEq, Repr

/-- Python `a < b` on dates: lexicographic on (year, month, day). -/
def Date.ltb (a b : Date) : Bool :=
  a.year < b.year ||
    (a.year == b.year &&
      (a.month < b.month || (a.month == b.month && a.day < b.day)))

/-- Python `a <= b` on dates. -/
def Date.leb (a b : Date) : Bool :=
  Date.ltb a b || decide (a = b)

/-- `Series` from `events/models.py`: a configured annual event series. -/
structure Series where
  id : String
  name : String
  queries : List String
deriving DecidableEq, Repr

/-- `StoredOccurrence` from `storage/events_repository.py`. -/
structure StoredOccurrence where
  series_id : String
  year : Int
  start_date : Option Date
  end_date : Option Date
  location : Option String
  timezone : Option String
  confident : Bool
  confirmed : Bool
  announcement_url : Option String
  included : Bool
deriving DecidableEq, Repr

/-- `StoredOccurrence.is_past`: the occurrence ended before the reference date.
A date value is never falsy in Python, so the truthiness tests are `Option`
presence tests. -/
def StoredOccurrence.is_past (o : StoredOccurrence) (today : Date) : Bool :=
  match o.end_date with
  | some e => Date.ltb e today
  | none =>
    match o.start_date with
    | some s => Date.ltb s today
    | none => false

/-- `Occurrence` from `events/models.py`: a series joined with one year's data. -/
structure Occurrence where
  series : Series
  year : Int
  start_date : Option Date
  end_date : Option Date
  location : Option String
  timezone : Option String
  confident : Bool
  confirmed : Bool
  announcement_url : Option String
  included : Bool
deriving DecidableEq, Repr

/-- `Occurrence.is_past` (the `now_provider` defaulting to `today` is inlined):
end date (or start date when no end date) strictly before the reference date;
no dates at all is never past. -/
def Occurrence.is_past (o : Occurrence) (today : Date) : Bool :=
  match o.end_date with
  | some e => Date.ltb e today
  | none =>
    match o.start_date with
    | some s => Date.ltb s today
    | none => false

/-- `LookupResult` from `events/models.py`: the agent's structured answer.
`announcement_url` (pydantic `HttpUrl`) is modelled as a string; `str(url)` in
the runner is then the identity. -/
structure LookupResult where
  year : Int
  start_date : Option Date
  end_date : Option Date
  location : Option String
  timezone : Option String
  confident : Bool
  confirmed : Bool
  announcement_url : Option String
deriving DecidableEq, Repr

/-- `LookupResult._clean_strings`: strip whitespace; empty or missing becomes
`None`. -/
def cleanOptString (v : Option String) : Option String :=
  match v with
  | none => none
  | some s =>
    let text := s.trim
    if text = "" then none else some text

/-- Pydantic validation of `LookupResult`: the `ge=1970, le=2100` bound on
`year`, `_clean_strings` on `location`/`timezone`, then `_validate_dates`
(start ≤ end when both present, year must match the start date's year, an end
date requires a start date, and a missing end date defaults to the start
date). -/
def LookupResult.validate (raw : LookupResult) : Except String LookupResult :=
  if raw.year < 1970 || 2100 < raw.year then
    Except.error "year out of bounds"
  else
    let l : LookupResult :=
      { raw with
        location := cleanOptString raw.location
        timezone := cleanOptString raw.timezone }
    match l.start_date, l.end_date with
    | some s, some e =>
      if Date.ltb e s then
        Except.error "start_date must be on or before end_date"
      else if l.year ≠ s.year then
        Except.error "year must match start_date"
      else
        Except.ok l
    | some s, none =>
      if l.year ≠ s.year then
        Except.error "year must match start_date"
      else
        Except.ok { l with end_date := some s }
    | none, some _ => Except.error "end_date requires start_date"
    | none, none => Except.ok l

/-- A lookup as it reaches the reconciler: some raw candidate passed pydantic
validation and produced it. -/
def ValidLookup (l : LookupResult) : Prop :=
  ∃ raw : LookupResult, LookupResult.validate raw = Except.ok l

/-- Python `a or b` on optional strings: `None` and `""` are falsy. -/
def pyOrStr (a b : Option String) : Option String :=
  match a with
  | some s => if s = "" then b else some s
  | none => b

/-- Python `a or b` on optional dates: a date is never falsy. -/
def pyOrDate (a b : Option Date) : Option Date :=
  match a with
  | some d => some d
  | none => b

/-- The `Occurrence` built from the incoming lookup in `_merge_occurrence`
(lines 104–115 of `events/runner.py`): the lookup's own fields only, with
`included=False`. -/
def lookupOccurrence (series : Series) (lookup : LookupResult) : Occurrence :=
  { series := series
    year := lookup.year
    start_date := lookup.start_date
    end_date := lookup.end_date
    location := lookup.location
    timezone := lookup.timezone
    confident := lookup.confident
    confirmed := lookup.confirmed
    announcement_url := lookup.announcement_url
    included := false }

/-- The `Occurrence` view of an existing stored record built in
`_merge_occurrence` (lines 117–129 of `events/runner.py`). -/
def storedOccurrenceView (series : Series) (ex : StoredOccurrence) : Occurrence :=
  { series := series
    year := ex.year
    start_date := ex.start_date
    end_date := ex.end_date
    location := ex.location
    timezone := ex.timezone
    confident := ex.confident
    confirmed := ex.confirmed
    announcement_url := ex.announcement_url
    included := ex.included }

/-- The field-level merge and inclusion computation of `_merge_occurrence`
(lines 137–164 of `events/runner.py`), reached when the past short-circuit
does not fire. -/
def mergeRecord (series : Series) (lookup : LookupResult)
    (existing : Option StoredOccurrence) : StoredOccurrence :=
  let included0 := lookup.confident || lookup.confirmed
  let included :=
    match existing with
    | some ex => if ex.included && !included0 then true else included0
    | none => included0
  { series_id := series.id
    year := lookup.year
    start_date :=
      pyOrDate lookup.start_date
        (match existing with | some ex => ex.start_date | none => none)
    end_date :=
      pyOrDate lookup.end_date
        (match existing with | some ex => ex.end_date | none => none)
    location :=
      pyOrStr lookup.location
        (match existing with | some ex => ex.location | none => none)
    timezone :=
      pyOrStr lookup.timezone
        (match existing with | some ex => ex.timezone | none => none)
    confident := lookup.confident
    confirmed := lookup.confirmed
    announcement_url :=
      match lookup.announcement_url with
      | some u => some u
      | none => (match existing with | some ex => ex.announcement_url | none => none)
    included := included }

/-- `_merge_occurrence` from `events/runner.py`: reject a year mismatch, skip
when both the existing record's occurrence and the incoming occurrence (built
from the lookup's own dates) are entirely past, otherwise merge. -/
def mergeOccurrence (series : Series) (lookup : LookupResult)
    (existing : Option StoredOccurrence) (reference_date : Date)
    (target_year : Int) : Except String StoredOccurrence :=
  if lookup.year ≠ target_year then
    Except.error "AI returned unexpected year"
  else
    match existing with
    | some ex =>
      if (storedOccurrenceView series ex).is_past reference_date &&
          (lookupOccurrence series lookup).is_past reference_date then
        Except.ok ex
      else
        Except.ok (mergeRecord series lookup (some ex))
    | none => Except.ok (mergeRecord series lookup none)

/-- The occurrence store: one SQLite row per (series_id, year), modelled as a
list of records. -/
abbrev Store := List StoredOccurrence

/-- `EventRepository.fetch_occurrence`: the record keyed by
(series_id, year), if any. -/
def fetchOccurrence (store : Store) (series_id : String) (year : Int) :
    Option StoredOccurrence :=
  store.find? (fun r => r.series_id == series_id && r.year == year)

/-- `EventRepository.save_occurrence`: SQL upsert keyed by
(series_id, year). -/
def saveOccurrence (store : Store) (occ : StoredOccurrence) : Store :=
  if store.any (fun r => r.series_id == occ.series_id && r.year == occ.year) then
    store.map (fun r =>
      if r.series_id == occ.series_id && r.year == occ.year then occ else r)
  else
    store ++ [occ]

/-- One iteration of the orchestration loop of `run` for a series/year pair:
fetch the existing record, merge, and upsert; on a validation error the
exception is caught and the store is left untouched. -/
def processLookup (store : Store) (series : Series) (lookup : LookupResult)
    (reference_date : Date) (target_year : Int) : Store :=
  match mergeOccurrence series lookup
      (fetchOccurrence store series.id target_year) reference_date target_year with
  | Except.ok merged => saveOccurrence store merged
  | Except.error _ => store

/-- `EventRepository.list_occurrences_for_calendar`: the SQL range query
`year >= current_year - retention_years AND included = 1`; a pure read. -/
def listOccurrencesForCalendar (store : Store) (current_year : Int)
    (retention_years : Int) : List StoredOccurrence :=
  store.filter (fun r =>
    decide (current_year - retention_years ≤ r.year) && r.included)

/-- The `Occurrence` built from a retained record in `_collect_for_calendar`
(lines 191–204 of `events/runner.py`). -/
def recordToOccurrence (series : Series) (record : StoredOccurrence) : Occurrence :=
  { series := series
    year := record.year
    start_date := record.start_date
    end_date := record.end_date
    location := record.location
    timezone := record.timezone
    confident := record.confident
    confirmed := record.confirmed
    announcement_url := record.announcement_url
    included := record.included }

/-- The projection loop of `_collect_for_calendar`: skip records whose series
is missing from the registry and records lacking a start or an end date,
otherwise emit the joined `Occurrence`. -/
def projectOccurrences (stored : List StoredOccurrence)
    (series_map : List (String × Series)) : List Occurrence :=
  match stored with
  | [] => []
  | record :: rest =>
    match series_map.lookup record.series_id with
    | none => projectOccurrences rest series_map
    | some series =>
      if record.start_date.isSome && record.end_date.isSome then
        recordToOccurrence series record :: projectOccurrences rest series_map
      else
        projectOccurrences rest series_map

/-- `_collect_for_calendar`: retention query followed by projection. -/
def collectForCalendar (store : Store) (series_map : List (String × Series))
    (current_year : Int) (retention_years : Int) : List Occurrence :=
  projectOccurrences (listOccurrencesForCalendar store current_year retention_years)
    series_map

/-- `UID_VERSION` from `constants.py`. -/
def UID_VERSION : String := "v1"

/-- Modelled from the spec: `DEFAULT_EVENTS_RELCALID` is referenced by
`events/models.py` but its definition is not part of the sources at hand; the
spec only requires it to be a fixed calendar identifier, and no claim depends
on its value. -/
def DEFAULT_EVENTS_RELCALID : String := "tech.calendar.events"

/-- `occurrence_uid` from `events/models.py`.  SHA-256 (`hashlib.sha256`,
an external deterministic primitive) is modelled as an explicit function
parameter `hash`; the digest input is exactly the
`"{UID_VERSION}|events|{series_id}|{year}"` format string. -/
def occurrence_uid (hash : String → String) (series_id : String) (year : Int)
    (relcalid : String) : String :=
  let digest := hash (UID_VERSION ++ "|events|" ++ series_id ++ "|" ++ toString year)
  UID_VERSION ++ "-" ++ digest ++ "@" ++ relcalid

/-- `Occurrence.uid`: `relcalid or DEFAULT_EVENTS_RELCALID` (Python truthiness:
`None` and `""` fall back to the default). -/
def Occurrence.uid (o : Occurrence) (hash : String → String)
    (relcalid : Option String) : String :=
  occurrence_uid hash o.series.id o.year
    (match relcalid with
     | some r => if r = "" then DEFAULT_EVENTS_RELCALID else r
     | none => DEFAULT_EVENTS_RELCALID)

/-! ## Helper lemmas -/

lemma Date.leb_refl (a : Date) : Date.leb a a = true := by
  simp [Date.leb]

lemma Date.leb_of_ltb_eq_false {a b : Date} (h : Date.ltb a b = false) :
    Date.leb b a = true := by
  cases a; cases b
  simp only [Date.ltb, Date.leb, Date.mk.injEq, Bool.or_eq_false_iff,
    Bool.and_eq_false_iff, Bool.or_eq_true, Bool.and_eq_true, decide_eq_true_eq,
    decide_eq_false_iff_not, beq_iff_eq, beq_eq_false_iff_ne, ne_eq] at *
  omega

lemma cleanOptString_ne_some_empty (v : Option String) :
    cleanOptString v ≠ some "" := by
  cases v with
  | none => simp [cleanOptString]
  | some s =>
    simp only [cleanOptString]
    split
    · simp
    · simp_all

/-- Inversion of pydantic validation: everything an accepted `LookupResult`
guarantees about its fields. -/
lemma validate_ok_fields {raw l : LookupResult}
    (h : LookupResult.validate raw = Except.ok l) :
    l.year = raw.year ∧
    l.start_date = raw.start_date ∧
    l.location = cleanOptString raw.location ∧
    l.timezone = cleanOptString raw.timezone ∧
    l.confident = raw.confident ∧
    l.confirmed = raw.confirmed ∧
    l.announcement_url = raw.announcement_url ∧
    (l.start_date.isSome ↔ l.end_date.isSome) ∧
    (∀ s e, l.start_date = some s → l.end_date = some e → Date.leb s e = true) ∧
    (∀ s, l.start_date = some s → s.year = l.year) ∧
    (∀ s, raw.start_date = some s → raw.end_date = none → l.end_date = some s) := by
  simp only [LookupResult.validate] at h
  split at h
  · exact absurd h (by simp)
  · rcases hs : raw.start_date with _ | s <;> rcases he : raw.end_date with _ | e <;>
      simp only [hs, he] at h
    · -- no dates at all
      rw [Except.ok.injEq] at h
      subst h
      simp [hs, he]
    · -- end date without start date
      exact absurd h (by simp)
    · -- start date only: end defaults to start
      split at h
      · exact absurd h (by simp)
      · rw [Except.ok.injEq] at h
        subst h
        simp_all [Date.leb_refl]
    · -- both dates present
      split at h
      · exact absurd h (by simp)
      · split at h
        · exact absurd h (by simp)
        · rw [Except.ok.injEq] at h
          subst h
          have hltb : Date.ltb e s = false := by simp_all
          have hyy : raw.year = s.year := by tauto
          refine ⟨rfl, rfl, rfl, rfl, rfl, rfl, rfl, by simp, ?_, ?_, ?_⟩
          · intro s' e' a b
            rw [Option.some.injEq] at a b
            subst a; subst b
            exact Date.leb_of_ltb_eq_false hltb
          · intro s' a
            rw [Option.some.injEq] at a
            subst a
            show s.year = raw.year
            omega
          · intro s' _ hnone
            exact absurd hnone (by simp [he])

lemma fetchOccurrence_some {store : Store} {series_id : String} {year : Int}
    {r : StoredOccurrence} (h : fetchOccurrence store series_id year = some r) :
    r.series_id = series_id ∧ r.year = year := by
  have := List.find?_some h
  simp only [Bool.and_eq_true, beq_iff_eq] at this
  exact this

lemma pyOrDate_self (a : Option Date) :
    pyOrDate a (pyOrDate a none) = pyOrDate a none := by
  cases a <;> rfl

lemma pyOrStr_self (a : Option String) :
    pyOrStr a (pyOrStr a none) = pyOrStr a none := by
  cases a with
  | none => rfl
  | some s => by_cases h : s = "" <;> simp [pyOrStr, h]

/-- Re-merging the same lookup against the record it itself produced from an
empty slot reproduces that record. -/
lemma mergeRecord_self (series : Series) (lookup : LookupResult) :
    mergeRecord series lookup (some (mergeRecord series lookup none)) =
      mergeRecord series lookup none := by
  cases ha : lookup.announcement_url <;>
    simp [mergeRecord, pyOrDate_self, pyOrStr_self, ha, Bool.and_not_self] <;>
    tauto

/-! ## Shared concrete inputs for witnesses and counterexamples -/

/-- A configured series used in concrete checks. -/
def exSeries : Series := { id := "s1", name := "Widget Conf", queries := ["widget conf"] }

/-- Reference date 2025-01-01 used in concrete checks. -/
def refDate : Date := ⟨2025, 1, 1⟩

/-- A stored record whose occurrence ended 2024-05-02, before `refDate`. -/
def pastStored : StoredOccurrence :=
  { series_id := "s1", year := 2024, start_date := some ⟨2024, 5, 1⟩,
    end_date := some ⟨2024, 5, 2⟩, location := none, timezone := none,
    confident := true, confirmed := false, announcement_url := none,
    included := true }

/-- A valid lookup for 2024 carrying no dates at all. -/
def emptyLookup : LookupResult :=
  { year := 2024, start_date := none, end_date := none, location := none,
    timezone := none, confident := false, confirmed := false,
    announcement_url := none }

/-- A valid lookup for 2024 whose dates 2024-06-01..2024-06-02 lie before
`refDate`. -/
def pastLookup : LookupResult :=
  { year := 2024, start_date := some ⟨2024, 6, 1⟩, end_date := some ⟨2024, 6, 2⟩,
    location := none, timezone := none, confident := false, confirmed := false,
    announcement_url := none }

/-- A valid lookup for 2026 with dates 2026-04-10..2026-04-12. -/
def futureLookup : LookupResult :=
  { year := 2026, start_date := some ⟨2026, 4, 10⟩, end_date := some ⟨2026, 4, 12⟩,
    location := none, timezone := none,
    confident := true, confirmed := false, announcement_url := none }

/-- A stored record for 2026 with dates, a location, and `included = true`. -/
def futureStored : StoredOccurrence :=
  { series_id := "s1", year := 2026, start_date := some ⟨2026, 4, 10⟩,
    end_date := some ⟨2026, 4, 12⟩, location := some "Berlin",
    timezone := some "Europe/Berlin",
    confident := true, confirmed := false, announcement_url := none,
    included := true }

/-! ## Claim theorems -/

/-- **C2** (monotonic inclusion): for every existing record with
`included = true` and every valid lookup whose year matches the target year —
in particular one with `confident = false` and `confirmed = false` — the
record `_merge_occurrence` returns still has `included = true`. -/
theorem merge_inclusion_monotonic (series : Series) (lookup : LookupResult)
    (ex : StoredOccurrence) (reference_date : Date) (target_year : Int)
    (_hv : ValidLookup lookup) (hy : lookup.year = target_year)
    (hinc : ex.included = true) :
    ∃ m, mergeOccurrence series lookup (some ex) reference_date target_year =
        Except.ok m ∧ m.included = true := by
  unfold mergeOccurrence
  rw [if_neg (by simp [hy])]
  by_cases hp : ((storedOccurrenceView series ex).is_past reference_date &&
      (lookupOccurrence series lookup).is_past reference_date) = true
  · exact ⟨ex, by simp [hp], hinc⟩
  · refine ⟨mergeRecord series lookup (some ex), by simp [hp], ?_⟩
    cases hc : (lookup.confident || lookup.confirmed) <;>
      simp [mergeRecord, hinc, hc]

/-- Witness for **C2**: a concrete unconfident, unconfirmed lookup against a
concrete included record keeps `included = true`. -/
theorem merge_inclusion_monotonic_witness :
    ∃ m, mergeOccurrence exSeries emptyLookup (some futureStored) refDate 2024 =
        Except.ok m ∧ m.included = true :=
  merge_inclusion_monotonic exSeries emptyLookup futureStored refDate 2024
    ⟨emptyLookup, rfl⟩ rfl rfl

/-- **C3** (year-mismatch validation): `_merge_occurrence` fails with a
validation error iff `lookup.year ≠ target_year`; on a mismatch the
orchestration step leaves the store untouched, and on a match it always
returns a record whose year is the target year. -/
theorem merge_year_validation (store : Store) (series : Series)
    (lookup : LookupResult) (reference_date : Date) (target_year : Int) :
    ((∃ msg, mergeOccurrence series lookup
        (fetchOccurrence store series.id target_year) reference_date target_year =
          Except.error msg) ↔ lookup.year ≠ target_year) ∧
    (lookup.year ≠ target_year →
      processLookup store series lookup reference_date target_year = store) ∧
    (lookup.year = target_year →
      ∃ m, mergeOccurrence series lookup
          (fetchOccurrence store series.id target_year) reference_date target_year =
            Except.ok m ∧ m.year = target_year) := by
  have hok : lookup.year = target_year →
      ∃ m, mergeOccurrence series lookup
          (fetchOccurrence store series.id target_year) reference_date target_year =
            Except.ok m ∧ m.year = target_year := by
    intro hy
    unfold mergeOccurrence
    rw [if_neg (by simp [hy])]
    cases hf : fetchOccurrence store series.id target_year with
    | none => exact ⟨mergeRecord series lookup none, rfl, hy⟩
    | some ex =>
      by_cases hp : ((storedOccurrenceView series ex).is_past reference_date &&
          (lookupOccurrence series lookup).is_past reference_date) = true
      · exact ⟨ex, by simp [hp], (fetchOccurrence_some hf).2⟩
      · exact ⟨mergeRecord series lookup (some ex), by simp [hp], hy⟩
  refine ⟨⟨?_, ?_⟩, ?_, hok⟩
  · rintro ⟨msg, hmsg⟩ hy
    obtain ⟨m, hm, -⟩ := hok hy
    rw [hm] at hmsg
    cases hmsg
  · intro hy
    refine ⟨"AI returned unexpected year", ?_⟩
    unfold mergeOccurrence
    rw [if_pos hy]
  · intro hy
    unfold processLookup mergeOccurrence
    rw [if_pos hy]

/-- Witness for **C3**: with an empty store and a matching year the merge
returns a record for that year. -/
theorem merge_year_validation_witness :
    ∃ m, mergeOccurrence exSeries emptyLookup
        (fetchOccurrence [] exSeries.id 2024) refDate 2024 =
          Except.ok m ∧ m.year = 2024 :=
  (merge_year_validation [] exSeries emptyLookup refDate 2024).2.2 rfl

/-- **C1 counterexample**: the claim fails on the code.  `emptyLookup` is a
valid lookup with no dates, `pastStored` ended before `refDate`, yet
`_merge_occurrence` does not return the existing record unchanged: the
incoming occurrence is built from the lookup's own dates only (no fallback to
existing dates), so it is never past and the short-circuit does not fire; the
merge then overwrites `confident` with the lookup's `false`. -/
theorem past_shortcircuit_counterexample :
    LookupResult.validate emptyLookup = Except.ok emptyLookup ∧
    StoredOccurrence.is_past pastStored refDate = true ∧
    mergeOccurrence exSeries emptyLookup (some pastStored) refDate 2024 ≠
      Except.ok pastStored := by
  refine ⟨rfl, rfl, fun h => ?_⟩
  have h' : Except.ok (mergeRecord exSeries emptyLookup (some pastStored)) =
      Except.ok pastStored := h
  exact absurd (Except.ok.inj h') (by decide)

/-- **C1 amended**: the short-circuit fires exactly when BOTH the existing
record's occurrence AND the incoming occurrence built solely from the lookup's
own dates (with no fallback to the existing dates) are entirely past relative
to the reference date; then `_merge_occurrence` returns the existing record
unchanged. -/
theorem past_shortcircuit_both_past (series : Series) (lookup : LookupResult)
    (ex : StoredOccurrence) (reference_date : Date) (target_year : Int)
    (_hv : ValidLookup lookup) (hy : lookup.year = target_year)
    (hex : (storedOccurrenceView series ex).is_past reference_date = true)
    (hinc : (lookupOccurrence series lookup).is_past reference_date = true) :
    mergeOccurrence series lookup (some ex) reference_date target_year =
      Except.ok ex := by
  unfold mergeOccurrence
  rw [if_neg (by simp [hy])]
  simp [hex, hinc]

/-- Witness for the amended **C1**: a concrete past record and a concrete
valid lookup whose own dates are past are short-circuited. -/
theorem past_shortcircuit_both_past_witness :
    mergeOccurrence exSeries pastLookup (some pastStored) refDate 2024 =
      Except.ok pastStored :=
  past_shortcircuit_both_past exSeries pastLookup pastStored refDate 2024
    ⟨pastLookup, rfl⟩ rfl rfl rfl

/-- **C4** (field-level merge policy): when the past short-circuit does not
apply, every date/location/timezone/announcement field of the merged record is
the incoming value when present (validation guarantees cleaned strings are
never present-but-empty), otherwise the existing value; `confident` and
`confirmed` always take the incoming lookup's values. -/
theorem merge_field_policy (series : Series) (lookup : LookupResult)
    (ex : StoredOccurrence) (reference_date : Date) (target_year : Int)
    (hv : ValidLookup lookup) (hy : lookup.year = target_year)
    (hpast : ((storedOccurrenceView series ex).is_past reference_date &&
        (lookupOccurrence series lookup).is_past reference_date) = false) :
    ∃ m, mergeOccurrence series lookup (some ex) reference_date target_year =
        Except.ok m ∧
      m.start_date =
        (if lookup.start_date.isSome then lookup.start_date else ex.start_date) ∧
      m.end_date =
        (if lookup.end_date.isSome then lookup.end_date else ex.end_date) ∧
      m.location =
        (if lookup.location.isSome then lookup.location else ex.location) ∧
      m.timezone =
        (if lookup.timezone.isSome then lookup.timezone else ex.timezone) ∧
      m.announcement_url =
        (if lookup.announcement_url.isSome then lookup.announcement_url
         else ex.announcement_url) ∧
      m.confident = lookup.confident ∧
      m.confirmed = lookup.confirmed := by
  obtain ⟨raw, hraw⟩ := hv
  obtain ⟨-, -, hloc, htz, -⟩ := validate_ok_fields hraw
  refine ⟨mergeRecord series lookup (some ex), ?_, ?_, ?_, ?_, ?_, ?_, rfl, rfl⟩
  · unfold mergeOccurrence
    rw [if_neg (by simp [hy])]
    simp [hpast]
  · cases hs : lookup.start_date <;> simp [mergeRecord, pyOrDate, hs]
  · cases he : lookup.end_date <;> simp [mergeRecord, pyOrDate, he]
  · rcases hl : lookup.location with _ | s
    · simp [mergeRecord, pyOrStr, hl]
    · have hne : ¬s = "" := by
        intro h0
        subst h0
        exact cleanOptString_ne_some_empty raw.location (by rw [← hloc, hl])
      simp [mergeRecord, pyOrStr, hl, hne]
  · rcases ht : lookup.timezone with _ | s
    · simp [mergeRecord, pyOrStr, ht]
    · have hne : ¬s = "" := by
        intro h0
        subst h0
        exact cleanOptString_ne_some_empty raw.timezone (by rw [← htz, ht])
      simp [mergeRecord, pyOrStr, ht, hne]
  · cases ha : lookup.announcement_url <;> simp [mergeRecord, ha]

/-- Witness for **C4**: a concrete future lookup merged over a concrete stored
record takes incoming dates and flags, and falls back to the stored location
and timezone. -/
theorem merge_field_policy_witness :
    ∃ m, mergeOccurrence exSeries futureLookup (some futureStored) refDate 2026 =
        Except.ok m ∧
      m.start_date =
        (if futureLookup.start_date.isSome then futureLookup.start_date
         else futureStored.start_date) ∧
      m.end_date =
        (if futureLookup.end_date.isSome then futureLookup.end_date
         else futureStored.end_date) ∧
      m.location =
        (if futureLookup.location.isSome then futureLookup.location
         else futureStored.location) ∧
      m.timezone =
        (if futureLookup.timezone.isSome then futureLookup.timezone
         else futureStored.timezone) ∧
      m.announcement_url =
        (if futureLookup.announcement_url.isSome then futureLookup.announcement_url
         else futureStored.announcement_url) ∧
      m.confident = futureLookup.confident ∧
      m.confirmed = futureLookup.confirmed :=
  merge_field_policy exSeries futureLookup futureStored refDate 2026
    ⟨futureLookup, rfl⟩ rfl rfl

/-- **C7** (idempotence/determinism of reconciliation): `_merge_occurrence` is
a pure function of its inputs — reconciling the same valid lookup twice
against the same starting state with no existing record yields the same
`StoredOccurrence` both times; moreover re-reconciling the same lookup against
the record it produced reproduces that record exactly. -/
theorem reconcile_deterministic (series : Series) (lookup : LookupResult)
    (reference_date : Date) (target_year : Int)
    (_hv : ValidLookup lookup) (hy : lookup.year = target_year) :
    mergeOccurrence series lookup none reference_date target_year =
      mergeOccurrence series lookup none reference_date target_year ∧
    ∀ m, mergeOccurrence series lookup none reference_date target_year =
        Except.ok m →
      mergeOccurrence series lookup (some m) reference_date target_year =
        Except.ok m := by
  refine ⟨rfl, fun m hm => ?_⟩
  have hm' : mergeRecord series lookup none = m := by
    unfold mergeOccurrence at hm
    rw [if_neg (by simp [hy])] at hm
    exact Except.ok.inj hm
  subst hm'
  unfold mergeOccurrence
  rw [if_neg (by simp [hy])]
  by_cases hp : ((storedOccurrenceView series (mergeRecord series lookup none)).is_past
      reference_date && (lookupOccurrence series lookup).is_past reference_date) = true
  · simp [hp]
  · simp [hp, mergeRecord_self]

/-- Witness for **C7**: reconciling a concrete lookup against an empty slot
and then against its own result is stable. -/
theorem reconcile_deterministic_witness :
    mergeOccurrence exSeries futureLookup
        (some (mergeRecord exSeries futureLookup none)) refDate 2026 =
      Except.ok (mergeRecord exSeries futureLookup none) :=
  (reconcile_deterministic exSeries futureLookup refDate 2026
    ⟨futureLookup, rfl⟩ rfl).2 (mergeRecord exSeries futureLookup none) rfl

/-- **C10** (implicit date-pair invariant): validation rejects an end date
without a start date, so a validated lookup has a start date iff it has an end
date, and reconciling it with no existing record yields a stored record that
never has exactly one of the two dates. -/
theorem valid_lookup_date_pairing (raw lookup : LookupResult) (series : Series)
    (reference_date : Date) (target_year : Int)
    (hraw : LookupResult.validate raw = Except.ok lookup)
    (hy : lookup.year = target_year) :
    (∀ c : LookupResult, c.start_date = none → c.end_date.isSome = true →
      ∃ msg, LookupResult.validate c = Except.error msg) ∧
    (lookup.start_date.isSome ↔ lookup.end_date.isSome) ∧
    ∃ m, mergeOccurrence series lookup none reference_date target_year =
        Except.ok m ∧ (m.start_date.isSome ↔ m.end_date.isSome) := by
  obtain ⟨-, -, -, -, -, -, -, hiff, -⟩ := validate_ok_fields hraw
  refine ⟨?_, hiff, mergeRecord series lookup none, ?_, ?_⟩
  · intro c h1 h2
    unfold LookupResult.validate
    split
    · exact ⟨_, rfl⟩
    · rcases he : c.end_date with _ | e
      · rw [he] at h2
        cases h2
      · exact ⟨"end_date requires start_date", by simp [h1, he]⟩
  · unfold mergeOccurrence
    rw [if_neg (by simp [hy])]
  · cases hs : lookup.start_date <;> cases he : lookup.end_date <;>
      simp_all [mergeRecord, pyOrDate]

/-- Witness for **C10**: a concrete validated lookup and its merge both carry
start and end dates together. -/
theorem valid_lookup_date_pairing_witness :
    (∀ c : LookupResult, c.start_date = none → c.end_date.isSome = true →
      ∃ msg, LookupResult.validate c = Except.error msg) ∧
    (futureLookup.start_date.isSome ↔ futureLookup.end_date.isSome) ∧
    ∃ m, mergeOccurrence exSeries futureLookup none refDate 2026 =
        Except.ok m ∧ (m.start_date.isSome ↔ m.end_date.isSome) :=
  valid_lookup_date_pairing futureLookup futureLookup exSeries refDate 2026
    rfl rfl

/-- A record inside the retention window (`year = 2025`, included). -/
def retainedRec : StoredOccurrence :=
  { series_id := "s1", year := 2025, start_date := some ⟨2025, 3, 1⟩,
    end_date := some ⟨2025, 3, 2⟩, location := none, timezone := none,
    confident := true, confirmed := false, announcement_url := none,
    included := true }

/-- A record aged out of the retention window (`year = 2024`, included). -/
def agedOutRec : StoredOccurrence :=
  { retainedRec with year := 2024 }

/-- A record inside the window but not included (`year = 2026`). -/
def notIncludedRec : StoredOccurrence :=
  { retainedRec with year := 2026, included := false }

/-- **C5** (retention selection): the calendar query returns exactly the
stored records with `year ≥ current_year - retention_years` and
`included = true` — a pure read that removes nothing — and on the concrete
boundary store with `current_year = 2030`, `retention_years = 5` it selects
the 2025 included record and excludes the 2024 included record and the 2026
non-included record. -/
theorem retention_selects_exactly :
    (∀ (store : Store) (current_year retention_years : Int)
        (r : StoredOccurrence),
        r ∈ listOccurrencesForCalendar store current_year retention_years ↔
          r ∈ store ∧ current_year - retention_years ≤ r.year ∧
            r.included = true) ∧
    listOccurrencesForCalendar [retainedRec, agedOutRec, notIncludedRec] 2030 5 =
      [retainedRec] := by
  constructor
  · intro store current_year retention_years r
    simp [listOccurrencesForCalendar, List.mem_filter, and_assoc]
  · rfl

/-- A stored record with no start date but `included = true`. -/
def noStartRec : StoredOccurrence :=
  { series_id := "s1", year := 2026, start_date := none,
    end_date := some ⟨2026, 4, 12⟩, location := none, timezone := none,
    confident := true, confirmed := false, announcement_url := none,
    included := true }

/-- **C6** (calendar projection): the projection loop skips, without error,
every record whose series identifier is absent from the registry and every
record lacking a start date or an end date, and for every other record emits
exactly one `Occurrence` joining the resolved series with the record's
fields. -/
theorem projection_skips_and_joins :
    (∀ (rest : List StoredOccurrence) (series_map : List (String × Series))
        (record : StoredOccurrence),
        series_map.lookup record.series_id = none →
        projectOccurrences (record :: rest) series_map =
          projectOccurrences rest series_map) ∧
    (∀ (rest : List StoredOccurrence) (series_map : List (String × Series))
        (record : StoredOccurrence),
        record.start_date = none ∨ record.end_date = none →
        projectOccurrences (record :: rest) series_map =
          projectOccurrences rest series_map) ∧
    (∀ (rest : List StoredOccurrence) (series_map : List (String × Series))
        (record : StoredOccurrence) (series : Series),
        series_map.lookup record.series_id = some series →
        record.start_date.isSome = true → record.end_date.isSome = true →
        projectOccurrences (record :: rest) series_map =
          recordToOccurrence series record :: projectOccurrences rest series_map) := by
  refine ⟨?_, ?_, ?_⟩
  · intro rest series_map record h
    simp [projectOccurrences, h]
  · intro rest series_map record h
    cases hl : series_map.lookup record.series_id with
    | none => simp [projectOccurrences, hl]
    | some series =>
      rcases h with h | h <;> simp [projectOccurrences, hl, h]
  · intro rest series_map record series hl h1 h2
    simp [projectOccurrences, hl, h1, h2]

/-- Witness for **C6**: a concrete record with `start_date = none` and
`included = true` whose series is registered still projects to nothing. -/
theorem projection_skips_and_joins_witness :
    projectOccurrences [noStartRec] [("s1", exSeries)] = [] := by
  rw [projection_skips_and_joins.2.1 [] [("s1", exSeries)] noStartRec
    (Or.inl rfl)]
  rfl

/-- **C8** (lookup validation invariants): every accepted lookup satisfies
start ≤ end when both dates are present and start-year agreement, a start date
with an absent end date is defaulted to end = start, and every candidate
violating one of the invariants is rejected with an error. -/
theorem lookup_validation_invariants (raw : LookupResult) :
    (∀ l, LookupResult.validate raw = Except.ok l →
      (∀ s e, l.start_date = some s → l.end_date = some e →
        Date.leb s e = true) ∧
      (∀ s, l.start_date = some s → s.year = l.year) ∧
      (∀ s, raw.start_date = some s → raw.end_date = none →
        l.start_date = some s ∧ l.end_date = some s)) ∧
    ((∃ s e, raw.start_date = some s ∧ raw.end_date = some e ∧
        Date.ltb e s = true) ∨
      (∃ s, raw.start_date = some s ∧ raw.year ≠ s.year) ∨
      (raw.start_date = none ∧ raw.end_date.isSome = true) →
      ∃ msg, LookupResult.validate raw = Except.error msg) := by
  constructor
  · intro l hl
    obtain ⟨hyr, hst, -, -, -, -, -, -, hle, hys, hdef⟩ := validate_ok_fields hl
    refine ⟨hle, hys, fun s hs hn => ⟨?_, hdef s hs hn⟩⟩
    rw [hst, hs]
  · intro hviol
    unfold LookupResult.validate
    split
    · exact ⟨_, rfl⟩
    · rcases hviol with ⟨s, e, hs, he, hlt⟩ | ⟨s, hs, hyne⟩ | ⟨hs, hse⟩
      · exact ⟨"start_date must be on or before end_date", by simp [hs, he, hlt]⟩
      · rcases he : raw.end_date with _ | e
        · exact ⟨"year must match start_date", by simp [hs, he, hyne]⟩
        · by_cases hlt : Date.ltb e s = true
          · exact ⟨"start_date must be on or before end_date",
              by simp [hs, he, hlt]⟩
          · exact ⟨"year must match start_date", by simp [hs, he, hlt, hyne]⟩
      · rcases he : raw.end_date with _ | e
        · rw [he] at hse
          cases hse
        · exact ⟨"end_date requires start_date", by simp [hs, he]⟩

/-- Witness for **C8**: the invariants hold for a concrete accepted lookup,
and a concrete candidate whose end date precedes its start date is
rejected. -/
theorem lookup_validation_invariants_witness :
    ((∀ s e, futureLookup.start_date = some s → futureLookup.end_date = some e →
        Date.leb s e = true) ∧
      (∀ s, futureLookup.start_date = some s → s.year = futureLookup.year) ∧
      (∀ s, futureLookup.start_date = some s → futureLookup.end_date = none →
        futureLookup.start_date = some s ∧ futureLookup.end_date = some s)) ∧
    ∃ msg, LookupResult.validate
        { futureLookup with
            start_date := some ⟨2026, 4, 12⟩,
            end_date := some ⟨2026, 4, 10⟩ } = Except.error msg :=
  ⟨(lookup_validation_invariants futureLookup).1 futureLookup rfl,
   (lookup_validation_invariants
      { futureLookup with
          start_date := some ⟨2026, 4, 12⟩,
          end_date := some ⟨2026, 4, 10⟩ }).2
     (Or.inl ⟨⟨2026, 4, 12⟩, ⟨2026, 4, 10⟩, rfl, rfl, rfl⟩)⟩

/-- **C9** (UID determinism and stability): the calendar identifier is derived
only from the fixed version tag, the domain `"events"`, the series identifier,
and the year, so any two computations over identical
(series identifier, year, relcalid) inputs — for any hash primitive, i.e.
across runs — produce the identical identifier string, whatever the other
occurrence fields are. -/
theorem uid_depends_only_on_inputs (hash : String → String)
    (o₁ o₂ : Occurrence) (relcalid : Option String)
    (hid : o₁.series.id = o₂.series.id) (hyear : o₁.year = o₂.year) :
    Occurrence.uid o₁ hash relcalid = Occurrence.uid o₂ hash relcalid := by
  simp [Occurrence.uid, occurrence_uid, hid, hyear]

/-- An occurrence of `exSeries` for 2026 used in the UID check. -/
def occAlpha : Occurrence :=
  { series := exSeries, year := 2026, start_date := none, end_date := none,
    location := none, timezone := none, confident := true, confirmed := false,
    announcement_url := none, included := true }

/-- An occurrence with the same series id and year as `occAlpha` but different
series metadata, dates, flags, and inclusion. -/
def occBeta : Occurrence :=
  { series := { id := "s1", name := "Other Name", queries := [] }, year := 2026,
    start_date := some ⟨2026, 4, 10⟩, end_date := some ⟨2026, 4, 12⟩,
    location := some "Berlin", timezone := none, confident := false,
    confirmed := true, announcement_url := some "https://example.com",
    included := false }

/-- Witness for **C9**: two concrete occurrences agreeing only on series id
and year get the same UID. -/
theorem uid_depends_only_on_inputs_witness :
    Occurrence.uid occAlpha (fun s => s) (some "cal") =
      Occurrence.uid occBeta (fun s => s) (some "cal") :=
  uid_depends_only_on_inputs (fun s => s) occAlpha occBeta (some "cal") rfl rfl

end TechCalendar
